import Mathlib

/-!
Verification development for the gozk ZooKeeper client library
(package `zookeeper`, file gozk.go).

The Go source is shallowly embedded: error codes become an inductive
enumeration, `os.Error` values become `Option OsError`, events and stats
become structures, the process-wide watch registry (the globals
`watchConns`, `watchCounter`, `watchLoopCounter`, plus each `Conn`'s
`watchChannels` map and handle) becomes an explicit `World` state record,
and Go channels become `Chan` values (a bounded buffer plus a closed
flag) stored in a heap table indexed by channel ids.  Native calls into
the C ZooKeeper library are external: their results (status code, data,
stat) are parameters of the embedded operations, or are derived from an
abstract `NodeStore` for the node-reading operations.
-/

namespace Gozk

set_option maxRecDepth 4096

/-- ZooKeeper status codes, as enumerated in gozk.go (`Error` constants). -/
inductive ErrorCode where
  | ZOK
  | ZSYSTEMERROR
  | ZRUNTIMEINCONSISTENCY
  | ZDATAINCONSISTENCY
  | ZCONNECTIONLOSS
  | ZMARSHALLINGERROR
  | ZUNIMPLEMENTED
  | ZOPERATIONTIMEOUT
  | ZBADARGUMENTS
  | ZINVALIDSTATE
  | ZAPIERROR
  | ZNONODE
  | ZNOAUTH
  | ZBADVERSION
  | ZNOCHILDRENFOREPHEMERALS
  | ZNODEEXISTS
  | ZNOTEMPTY
  | ZSESSIONEXPIRED
  | ZINVALIDCALLBACK
  | ZINVALIDACL
  | ZAUTHFAILED
  | ZCLOSING
  | ZNOTHING
  | ZSESSIONMOVED
  deriving DecidableEq

/-- A Go `os.Error` value as used by gozk: either a ZooKeeper status code
or a C `errno`-derived system error (a distinct dynamic type in Go, so it
never compares equal to an `Error` code). -/
inductive OsError where
  | zk (code : ErrorCode)
  | errno (n : Nat)
  deriving DecidableEq

/-- Embedding of `zkError` (gozk.go): ZOK maps to nil; ZSYSTEMERROR yields
the C errno error when one is set, the bare code otherwise; every other
code is returned as-is. -/
def zkError (rc : ErrorCode) (cerr : Option OsError) : Option OsError :=
  match rc with
  | ErrorCode.ZOK => none
  | ErrorCode.ZSYSTEMERROR =>
    match cerr with
    | some e => some e
    | none => some (OsError.zk ErrorCode.ZSYSTEMERROR)
  | code => some (OsError.zk code)

/-- Constants for Event Type (gozk.go). -/
def EVENT_CREATED : Int := 1

def EVENT_DELETED : Int := 2

def EVENT_CHANGED : Int := 3

def EVENT_CHILD : Int := 4

def EVENT_SESSION : Int := -1

def EVENT_NOTWATCHING : Int := -2

/-- EVENT_CLOSED does not exist in zk; it is the zero value used for events
read from closed channels. -/
def EVENT_CLOSED : Int := 0

/-- Constants for Event State (gozk.go). -/
def STATE_EXPIRED_SESSION : Int := -112

def STATE_AUTH_FAILED : Int := -113

def STATE_CONNECTING : Int := 1

def STATE_ASSOCIATING : Int := 2

def STATE_CONNECTED : Int := 3

/-- STATE_CLOSED does not exist in zk; it is the zero value used for events
read from closed channels. -/
def STATE_CLOSED : Int := 0

/-- Embedding of the `Event` struct (fields Type, Path, State). -/
structure Event where
  type : Int
  Path : String
  State : Int
  deriving DecidableEq

/-- Embedding of `Event.Ok`: true exactly when the state is
STATE_CONNECTED. -/
def Event.Ok (e : Event) : Bool :=
  decide (e.State = STATE_CONNECTED)

/-- Embedding of the `Stat` struct (the C `struct_Stat` fields); a Go
zero value has every field equal to 0. -/
structure Stat where
  czxid : Int
  mzxid : Int
  ctime : Int
  mtime : Int
  version : Int
  cversion : Int
  aversion : Int
  ephemeralOwner : Int
  dataLength : Int
  numChildren : Int
  pzxid : Int
  deriving DecidableEq

/-- The Go zero value `var cstat Stat`. -/
def defaultStat : Stat :=
  { czxid := 0, mzxid := 0, ctime := 0, mtime := 0, version := 0,
    cversion := 0, aversion := 0, ephemeralOwner := 0, dataLength := 0,
    numChildren := 0, pzxid := 0 }

def Stat.Czxid (s : Stat) : Int := s.czxid

def Stat.Mzxid (s : Stat) : Int := s.mzxid

def Stat.CTime (s : Stat) : Int := s.ctime

def Stat.MTime (s : Stat) : Int := s.mtime

def Stat.Version (s : Stat) : Int := s.version

def Stat.CVersion (s : Stat) : Int := s.cversion

def Stat.AVersion (s : Stat) : Int := s.aversion

def Stat.EphemeralOwner (s : Stat) : Int := s.ephemeralOwner

def Stat.DataLength (s : Stat) : Int := s.dataLength

def Stat.NumChildren (s : Stat) : Int := s.numChildren

def Stat.Pzxid (s : Stat) : Int := s.pzxid

/-- Embedding of the `ACL` struct. -/
structure ACL where
  Perms : Nat
  Scheme : String
  Id : String
  deriving DecidableEq

-- ----------------------------------------------------------------------
-- Finite maps as association lists (the embedding of Go maps).

/-- Lookup in an association-list map. -/
def mlookup {α : Type} : List (Nat × α) → Nat → Option α
  | [], _ => none
  | p :: rest, k => if p.1 = k then some p.2 else mlookup rest k

/-- Map update `m[k] = v`. -/
def mapInsert {α : Type} (m : List (Nat × α)) (k : Nat) (v : α) : List (Nat × α) :=
  (k, v) :: m.filter (fun p => p.1 != k)

/-- Map deletion `m[k] = _, false` (the Go 1-era delete idiom used in
gozk.go). -/
def mapDelete {α : Type} (m : List (Nat × α)) (k : Nat) : List (Nat × α) :=
  m.filter (fun p => p.1 != k)

theorem mlookup_filter_self {α : Type} (m : List (Nat × α)) (k : Nat) :
    mlookup (m.filter (fun p => p.1 != k)) k = none := by
  induction m with
  | nil => rfl
  | cons p rest ih =>
    rw [List.filter_cons]
    by_cases h : p.1 = k
    · simp only [h, bne_self_eq_false, if_false]
      exact ih
    · simp only [bne_iff_ne, ne_eq, h, not_false_eq_true, if_true, mlookup, h, if_false]
      exact ih

theorem mlookup_filter_ne {α : Type} (m : List (Nat × α)) (k c : Nat) (h : c ≠ k) :
    mlookup (m.filter (fun p => p.1 != k)) c = mlookup m c := by
  induction m with
  | nil => rfl
  | cons p rest ih =>
    rw [List.filter_cons]
    by_cases hk : p.1 = k
    · have hkc : ¬k = c := fun hkc => h hkc.symm
      simp only [hk, bne_self_eq_false, Bool.false_eq_true, if_false, mlookup, hkc]
      exact ih
    · simp only [bne_iff_ne, ne_eq, hk, not_false_eq_true, if_true, mlookup]
      by_cases hc : p.1 = c
      · simp [hc]
      · simp only [hc, if_false]
        exact ih

theorem filter_eq_self_of_mlookup_none {α : Type} (m : List (Nat × α)) (k : Nat)
    (h : mlookup m k = none) : m.filter (fun p => p.1 != k) = m := by
  induction m with
  | nil => rfl
  | cons p rest ih =>
    rw [List.filter_cons]
    by_cases hk : p.1 = k
    · simp [mlookup, hk] at h
    · simp only [mlookup, hk, if_false] at h
      simp only [bne_iff_ne, ne_eq, hk, not_false_eq_true, if_true]
      rw [ih h]

theorem mlookup_mapInsert_self {α : Type} (m : List (Nat × α)) (k : Nat) (v : α) :
    mlookup (mapInsert m k v) k = some v := by
  simp [mapInsert, mlookup]

theorem mlookup_mapInsert_ne {α : Type} (m : List (Nat × α)) (k c : Nat) (v : α)
    (h : c ≠ k) : mlookup (mapInsert m k v) c = mlookup m c := by
  have hk : k ≠ c := fun hc => h hc.symm
  simp [mapInsert, mlookup, hk, mlookup_filter_ne m k c h]

theorem mlookup_mapDelete_self {α : Type} (m : List (Nat × α)) (k : Nat) :
    mlookup (mapDelete m k) k = none :=
  mlookup_filter_self m k

theorem mlookup_mapDelete_ne {α : Type} (m : List (Nat × α)) (k c : Nat)
    (h : c ≠ k) : mlookup (mapDelete m k) c = mlookup m c :=
  mlookup_filter_ne m k c h

theorem mapDelete_mapInsert_cancel {α : Type} (m : List (Nat × α)) (k : Nat) (v : α)
    (h : mlookup m k = none) : mapDelete (mapInsert m k v) k = m := by
  simp only [mapDelete, mapInsert, List.filter, bne_self_eq_false]
  rw [List.filter_filter]
  simp only [Bool.and_self]
  exact filter_eq_self_of_mlookup_none m k h

-- ----------------------------------------------------------------------
-- Channels and the process-wide watch registry state.

/-- A Go channel of `Event` values: a bounded FIFO buffer plus a closed
flag.  `capacity` is the buffer size given to `make(chan Event, buf)`. -/
structure Chan where
  capacity : Nat
  buffer : List Event
  closed : Bool
  deriving DecidableEq

/-- Non-blocking send (the `select`/`default` in `sendEvent`): `some`
with the event appended when the buffer has room, `none` when the send
cannot be accepted immediately. -/
def Chan.trySend (c : Chan) (e : Event) : Option Chan :=
  if c.buffer.length < c.capacity then
    some { c with buffer := c.buffer ++ [e] }
  else
    none

/-- Receive: buffered events first; a closed empty channel yields the
zero `Event` value (Go's read-from-closed-channel semantics); an open
empty channel blocks (`none`). -/
def Chan.receive (c : Chan) : Option (Event × Chan) :=
  match c.buffer with
  | e :: rest => some (e, { c with buffer := rest })
  | [] =>
    if c.closed then
      some ({ type := 0, Path := "", State := 0 }, c)
    else
      none

/-- Embedding of the `Conn` struct: `watchChannels` maps watch ids to
channel ids (channel values live in the `World`'s heap table), `handle`
is the native handle (`none` models the nulled handle). -/
structure Conn where
  watchChannels : List (Nat × Nat)
  sessionWatchId : Nat
  handle : Option Nat
  deriving DecidableEq

/-- The process-wide mutable state of the watching mechanism: the
globals `watchConns` (watch id to owning connection), `watchCounter`,
and `watchLoopCounter` from gozk.go, plus heap tables for `Conn` values
(`conns`, keyed by connection id) and channels (`chans`, keyed by channel
id; `nextChanId` models allocation of fresh channels by `make`). -/
structure World where
  conns : List (Nat × Conn)
  chans : List (Nat × Chan)
  watchConns : List (Nat × Nat)
  watchCounter : Nat
  watchLoopCounter : Int
  nextChanId : Nat
  deriving DecidableEq

/-- Embedding of `CountPendingWatches`: the number of entries of the
global `watchConns` map. -/
def CountPendingWatches (w : World) : Nat :=
  w.watchConns.length

/-- Embedding of `Conn.createWatch`: allocates a channel with buffer 1,
or 32 when `session` is true, takes the next watch id from the global
counter, increments the counter, and registers the channel in the
connection's `watchChannels` and the watch in the global `watchConns`.
Returns (watchId, channel id, new world). -/
def createWatch (w : World) (connId : Nat) (session : Bool) : Nat × Nat × World :=
  let buf := if session then 32 else 1
  let ch : Chan := { capacity := buf, buffer := [], closed := false }
  let chanId := w.nextChanId
  let watchId := w.watchCounter
  let conns :=
    match mlookup w.conns connId with
    | some zk =>
      mapInsert w.conns connId
        { zk with watchChannels := mapInsert zk.watchChannels watchId chanId }
    | none => w.conns
  (watchId, chanId,
    { w with
      conns := conns,
      chans := mapInsert w.chans chanId ch,
      watchConns := mapInsert w.watchConns watchId connId,
      watchCounter := watchId + 1,
      nextChanId := chanId + 1 })

/-- Embedding of `Conn.forgetWatch`: removes the watch from the
connection's `watchChannels` and from the global `watchConns`, delivering
nothing. -/
def forgetWatch (w : World) (connId watchId : Nat) : World :=
  { w with
    conns :=
      match mlookup w.conns connId with
      | some zk =>
        mapInsert w.conns connId
          { zk with watchChannels := mapDelete zk.watchChannels watchId }
      | none => w.conns,
    watchConns := mapDelete w.watchConns watchId }

/-- One step of the `range` loop in `closeAllWatches`: close the entry's
channel.  Recursion over the entry list embeds the loop. -/
def closeFold : List (Nat × Chan) → List (Nat × Nat) → List (Nat × Chan)
  | chans, [] => chans
  | chans, p :: rest =>
    closeFold
      (match mlookup chans p.2 with
       | some ch => mapInsert chans p.2 { ch with closed := true }
       | none => chans)
      rest

/-- The deletions performed by the `range` loop in `closeAllWatches`:
every watch id of the list is removed from the map. -/
def deleteFold {α : Type} : List (Nat × α) → List (Nat × Nat) → List (Nat × α)
  | m, [] => m
  | m, p :: rest => deleteFold (mapDelete m p.1) rest

/-- Embedding of `Conn.closeAllWatches`: for every entry of the
connection's `watchChannels`, close the channel and delete the entry from
both `watchChannels` and the global `watchConns`. -/
def closeAllWatches (w : World) (connId : Nat) : World :=
  match mlookup w.conns connId with
  | none => w
  | some zk =>
    { w with
      chans := closeFold w.chans zk.watchChannels,
      conns := mapInsert w.conns connId { zk with watchChannels := [] },
      watchConns := deleteFold w.watchConns zk.watchChannels }

/-- Embedding of `runWatchLoop`: increments the loop reference count. -/
def runWatchLoop (w : World) : World :=
  { w with watchLoopCounter := w.watchLoopCounter + 1 }

/-- Embedding of `stopWatchLoop`: decrements the loop reference count,
bumping it back to 1 when it would reach 0 (the loop never actually
stops). -/
def stopWatchLoop (w : World) : World :=
  let w1 := { w with watchLoopCounter := w.watchLoopCounter - 1 }
  if w1.watchLoopCounter = 0 then
    { w1 with watchLoopCounter := w1.watchLoopCounter + 1 }
  else
    w1

/-- The panic message of `sendEvent` for a zeroed event. -/
def closedEventPanicMsg : String := "Attempted to send a CLOSED event"

/-- The panic message of `sendEvent` for a full session stream. -/
def sessionFullPanicMsg : String := "Session event channel buffer is full"

/-- The panic message of `sendEvent` for a full one-shot stream. -/
def watchFullPanicMsg : String := "Watch event channel buffer is full"

/-- Embedding of `sendEvent`: panics (`Except.error` with the panic
message) on a STATE_CLOSED event or a full buffer; drops the event when
the watch id is unregistered, when the channel is missing, or when a
transient session-state event reaches a non-session watch; otherwise
appends the event to the destination channel, and, for a watch that is
not the session watch, retires it from both registry maps and closes the
channel. -/
def sendEvent (w : World) (watchId : Nat) (event : Event) : Except String World :=
  if event.State = STATE_CLOSED then
    Except.error closedEventPanicMsg
  else
    match mlookup w.watchConns watchId with
    | none => Except.ok w
    | some connId =>
      match mlookup w.conns connId with
      | none => Except.ok w
      | some zk =>
        if event.type = EVENT_SESSION ∧ watchId ≠ zk.sessionWatchId ∧
            event.State ≠ STATE_EXPIRED_SESSION ∧ event.State ≠ STATE_AUTH_FAILED then
          Except.ok w
        else
          match mlookup zk.watchChannels watchId with
          | none => Except.ok w
          | some chanId =>
            match mlookup w.chans chanId with
            | none => Except.ok w
            | some ch =>
              match Chan.trySend ch event with
              | none =>
                if watchId = zk.sessionWatchId then
                  Except.error sessionFullPanicMsg
                else
                  Except.error watchFullPanicMsg
              | some ch1 =>
                if watchId ≠ zk.sessionWatchId then
                  Except.ok
                    { w with
                      chans := mapInsert w.chans chanId { ch1 with closed := true },
                      conns := mapInsert w.conns connId
                        { zk with watchChannels := mapDelete zk.watchChannels watchId },
                      watchConns := mapDelete w.watchConns watchId }
                else
                  Except.ok { w with chans := mapInsert w.chans chanId ch1 }

/-- Embedding of `Conn.Close`: with the handle already nulled, returns
ZCLOSING and changes nothing; otherwise performs the native close (whose
status `rc`/`cerr` is external), closes all watches, stops the watch
loop, nulls the handle, and returns `zkError rc cerr`. -/
def Conn.Close (w : World) (connId : Nat) (rc : ErrorCode) (cerr : Option OsError) :
    Option OsError × World :=
  match mlookup w.conns connId with
  | none => (none, w)
  | some zk =>
    if zk.handle = none then
      (some (OsError.zk ErrorCode.ZCLOSING), w)
    else
      let w1 := closeAllWatches w connId
      let w2 := stopWatchLoop w1
      let w3 :=
        match mlookup w2.conns connId with
        | some zk2 => { w2 with conns := mapInsert w2.conns connId { zk2 with handle := none } }
        | none => w2
      (zkError rc cerr, w3)

-- ----------------------------------------------------------------------
-- Node operation facade.

/-- The tree held by the ZooKeeper service, abstracted as a partial map
from paths to (data, stat).  Used to model the native read calls. -/
def NodeStore : Type := String → Option (String × Stat)

/-- Model of the native `zoo_wget` (no watcher installed): returns
(status, data, stat written through the buffer); ZNONODE for an absent
node, in which case the caller's buffers are untouched. -/
def zoo_wget (store : NodeStore) (path : String) : ErrorCode × String × Stat :=
  match store path with
  | some d => (ErrorCode.ZOK, d.1, d.2)
  | none => (ErrorCode.ZNONODE, "", defaultStat)

/-- Model of the native `zoo_wexists` (no watcher installed): returns the
status and the stat the call would write through the stat buffer handed
to it. -/
def zoo_wexists (store : NodeStore) (path : String) : ErrorCode × Stat :=
  match store path with
  | some d => (ErrorCode.ZOK, d.2)
  | none => (ErrorCode.ZNONODE, defaultStat)

/-- Embedding of `Conn.Get`: on any non-ZOK status the data is empty, the
stat nil and the status translated by `zkError`; otherwise the data and
the filled `cstat` are returned. -/
def Conn.Get (store : NodeStore) (path : String) : String × Option Stat × Option OsError :=
  let r := zoo_wget store path
  let rc := r.1
  if rc ≠ ErrorCode.ZOK then
    ("", none, zkError rc none)
  else
    (r.2.1, some r.2.2, none)

/-- Embedding of `Conn.Exists` exactly as written in gozk.go: the source
passes `&stat.c` — the address inside the nil named return `stat` —
to `zoo_wexists` instead of `&cstat.c`, so the stat reported by the
native call is never written into the local `cstat`; `cstat` keeps its
Go zero value, which is what `stat = &cstat` then exposes on ZOK.
ZNONODE yields (nil, nil); any other failure is translated by
`zkError`. -/
def Conn.Exists (store : NodeStore) (path : String) : Option Stat × Option OsError :=
  let cstat : Stat := defaultStat
  let rc := (zoo_wexists store path).1
  if rc = ErrorCode.ZOK then
    (some cstat, none)
  else if rc ≠ ErrorCode.ZNONODE then
    (none, zkError rc none)
  else
    (none, none)

/-- Embedding of `Conn.GetW`.  The native `zoo_wget` call both installs
the watch (whose id was registered just before the call) and produces the
status/data/stat; those native results are parameters.  On a non-ZOK
status the just-registered watch is forgotten and `zkError` returned; on
ZOK the data, stat and the watch channel are returned.  The result is
(data, stat, watch channel id, error, new world). -/
def Conn.GetW (w : World) (connId : Nat) (rc : ErrorCode) (cerr : Option OsError)
    (data : String) (cstat : Stat) :
    String × Option Stat × Option Nat × Option OsError × World :=
  let cw := createWatch w connId true
  let watchId := cw.1
  let chanId := cw.2.1
  let w1 := cw.2.2
  if rc ≠ ErrorCode.ZOK then
    ("", none, none, zkError rc cerr, forgetWatch w1 connId watchId)
  else
    (data, some cstat, some chanId, none, w1)

/-- Embedding of `Conn.ChildrenW`: like `Conn.GetW` but for the children
list; the children decoded from the native vector are returned in both
branches, as in the source. -/
def Conn.ChildrenW (w : World) (connId : Nat) (rc : ErrorCode) (cerr : Option OsError)
    (children : List String) (cstat : Stat) :
    List String × Option Stat × Option Nat × Option OsError × World :=
  let cw := createWatch w connId true
  let watchId := cw.1
  let chanId := cw.2.1
  let w1 := cw.2.2
  if rc = ErrorCode.ZOK then
    (children, some cstat, some chanId, none, w1)
  else
    (children, none, none, zkError rc cerr, forgetWatch w1 connId watchId)

/-- Embedding of `Conn.ExistsW`: ZOK returns the stat and the watch
channel; ZNONODE returns a nil stat but keeps the watch (a valid
outcome); any other status forgets the just-registered watch and returns
`zkError`. -/
def Conn.ExistsW (w : World) (connId : Nat) (rc : ErrorCode) (cerr : Option OsError)
    (cstat : Stat) :
    Option Stat × Option Nat × Option OsError × World :=
  let cw := createWatch w connId true
  let watchId := cw.1
  let chanId := cw.2.1
  let w1 := cw.2.2
  match rc with
  | ErrorCode.ZOK => (some cstat, some chanId, none, w1)
  | ErrorCode.ZNONODE => (none, some chanId, none, w1)
  | _ => (none, none, zkError rc cerr, forgetWatch w1 connId watchId)

-- ----------------------------------------------------------------------
-- RetryChange.

/-- Embedding of the `ChangeFunc` type. -/
def ChangeFunc : Type := String → Option Stat → String × Option OsError

/-- The results the ZooKeeper service gives to the calls issued by one
iteration of `RetryChange`: `get` yields (data, stat, error), `create`
yields (path created, error), `set` yields (stat, error). -/
structure ZkOps where
  get : String → String × Option Stat × Option OsError
  create : String → String → Int → List ACL → String × Option OsError
  set : String → String → Int → Option Stat × Option OsError

/-- Outcome of one iteration of the `RetryChange` loop: `done err`
returns from the function with `err`; `retry` goes back to the read
step. -/
inductive RetryOutcome where
  | done (err : Option OsError)
  | retry
  deriving DecidableEq

/-- One iteration of the loop in `Conn.RetryChange`, exactly as written
in gozk.go: read; abort on a non-ZNONODE read error; apply `changeFunc`,
aborting on its error; create when the node did not exist, retrying only
on ZNODEEXISTS; return nil when the new value equals the old; otherwise
set at the old stat's version, retrying on ZBADVERSION or ZNONODE — and,
as in the source, returning nil (not the error) in every other case. -/
def retryChangeStep (ops : ZkOps) (path : String) (flags : Int) (acl : List ACL)
    (changeFunc : ChangeFunc) : RetryOutcome :=
  let g := ops.get path
  let oldValue := g.1
  let oldStat := g.2.1
  let err := g.2.2
  if err ≠ none ∧ err ≠ some (OsError.zk ErrorCode.ZNONODE) then
    RetryOutcome.done err
  else
    let cf := changeFunc oldValue oldStat
    let newValue := cf.1
    if cf.2 ≠ none then
      RetryOutcome.done cf.2
    else
      match oldStat with
      | none =>
        let err1 := (ops.create path newValue flags acl).2
        if err1 = none ∨ err1 ≠ some (OsError.zk ErrorCode.ZNODEEXISTS) then
          RetryOutcome.done err1
        else
          RetryOutcome.retry
      | some oldStat =>
        if newValue = oldValue then
          RetryOutcome.done none
        else
          let err2 := (ops.set path newValue oldStat.Version).2
          if err2 = none ∨ (err2 ≠ some (OsError.zk ErrorCode.ZBADVERSION) ∧
              err2 ≠ some (OsError.zk ErrorCode.ZNONODE)) then
            RetryOutcome.done none
          else
            RetryOutcome.retry

/-- The `RetryChange` loop, fuelled: `opsSeq n` is what the service
answers during iteration `n`.  `some err` is the value `RetryChange`
returns; `none` means the fuel ran out with the loop still retrying. -/
def RetryChange : Nat → (Nat → ZkOps) → String → Int → List ACL → ChangeFunc →
    Option (Option OsError)
  | 0, _, _, _, _, _ => none
  | fuel + 1, opsSeq, path, flags, acl, changeFunc =>
    match retryChangeStep (opsSeq 0) path flags acl changeFunc with
    | RetryOutcome.done err => some err
    | RetryOutcome.retry =>
      RetryChange fuel (fun n => opsSeq (n + 1)) path flags acl changeFunc

-- ----------------------------------------------------------------------
-- Registry operation traces (for the identifier-allocation invariant).

/-- The operations that touch the watch registry. -/
inductive RegOp where
  | create (connId : Nat) (session : Bool)
  | forget (connId watchId : Nat)
  | closeAll (connId : Nat)
  | send (watchId : Nat) (event : Event)

/-- Applying one registry operation to the world.  A `send` that panics
leaves the world as it was (the process would terminate there). -/
def applyOp (w : World) : RegOp → World
  | RegOp.create connId session => (createWatch w connId session).2.2
  | RegOp.forget connId watchId => forgetWatch w connId watchId
  | RegOp.closeAll connId => closeAllWatches w connId
  | RegOp.send watchId event =>
    match sendEvent w watchId event with
    | Except.ok w1 => w1
    | Except.error _ => w

/-- Applying a sequence of registry operations. -/
def applyOps (w : World) : List RegOp → World
  | [] => w
  | op :: rest => applyOps (applyOp w op) rest

theorem sendEvent_ok_watchCounter (w : World) (i : Nat) (e : Event) (w1 : World)
    (h : sendEvent w i e = Except.ok w1) : w1.watchCounter = w.watchCounter := by
  unfold sendEvent at h
  repeat' split at h
  all_goals first
    | (injection h with h; subst h; rfl)
    | injection h

theorem applyOp_watchCounter_le (w : World) (op : RegOp) :
    w.watchCounter ≤ (applyOp w op).watchCounter := by
  cases op with
  | create connId session => exact Nat.le_succ w.watchCounter
  | forget connId watchId => exact Nat.le_refl _
  | closeAll connId =>
    show w.watchCounter ≤ (closeAllWatches w connId).watchCounter
    unfold closeAllWatches
    split <;> exact Nat.le_refl _
  | send watchId event =>
    show w.watchCounter ≤
      (match sendEvent w watchId event with
       | Except.ok w1 => w1
       | Except.error _ => w).watchCounter
    cases h : sendEvent w watchId event with
    | ok w1 => exact Nat.le_of_eq (sendEvent_ok_watchCounter w watchId event w1 h).symm
    | error msg => exact Nat.le_refl _

theorem applyOps_watchCounter_le (w : World) (ops : List RegOp) :
    w.watchCounter ≤ (applyOps w ops).watchCounter := by
  induction ops generalizing w with
  | nil => exact Nat.le_refl _
  | cons op rest ih =>
    exact Nat.le_trans (applyOp_watchCounter_le w op) (ih (applyOp w op))

-- ----------------------------------------------------------------------
-- Concrete fixtures used by the closed theorems and witnesses.

/-- A world with no connections, channels or watches. -/
def emptyWorld : World :=
  { conns := [], chans := [], watchConns := [], watchCounter := 0,
    watchLoopCounter := 0, nextChanId := 0 }

-- ----------------------------------------------------------------------
-- Claim theorems.

/-- Claim C8: watch identifiers come from the single process-wide
counter: `createWatch` hands out exactly the current counter value and
bumps it, no registry operation ever decreases the counter, and hence an
identifier allocated after any sequence of forget/deliver/close
operations is strictly greater than every previously allocated one —
identifiers are never reused within the process lifetime. -/
theorem createWatch_ids_monotonic (w : World) (connId1 connId2 : Nat)
    (s1 s2 : Bool) (ops : List RegOp) :
    (createWatch w connId1 s1).1 = w.watchCounter
    ∧ ((createWatch w connId1 s1).2.2).watchCounter = w.watchCounter + 1
    ∧ (createWatch (applyOps ((createWatch w connId1 s1).2.2) ops) connId2 s2).1
        > (createWatch w connId1 s1).1 := by
  refine ⟨rfl, rfl, ?_⟩
  have h2 := applyOps_watchCounter_le ((createWatch w connId1 s1).2.2) ops
  have h1 : ((createWatch w connId1 s1).2.2).watchCounter = w.watchCounter + 1 := rfl
  have h3 : (createWatch (applyOps ((createWatch w connId1 s1).2.2) ops) connId2 s2).1
      = (applyOps ((createWatch w connId1 s1).2.2) ops).watchCounter := rfl
  have h4 : (createWatch w connId1 s1).1 = w.watchCounter := rfl
  rw [h3, h4]
  rw [h1] at h2
  omega

/-- Claim C9: `sendEvent` refuses to transmit the closed-sentinel: an
event whose state is STATE_CLOSED makes it panic immediately with the
message "Attempted to send a CLOSED event", before touching the
registry. -/
theorem sendEvent_closed_event_panics (w : World) (watchId : Nat) (e : Event)
    (h : e.State = STATE_CLOSED) :
    sendEvent w watchId e = Except.error closedEventPanicMsg
    ∧ closedEventPanicMsg = "Attempted to send a CLOSED event" := by
  constructor
  · unfold sendEvent
    rw [if_pos h]
  · rfl

/-- Witness for C9 at a concrete zeroed event. -/
theorem sendEvent_closed_event_panics_witness :
    sendEvent emptyWorld 0 { type := 0, Path := "", State := 0 }
      = Except.error closedEventPanicMsg :=
  (sendEvent_closed_event_panics emptyWorld 0 { type := 0, Path := "", State := 0 } rfl).1

/-- Claim C10: `Event.Ok` holds exactly on STATE_CONNECTED; the
expired-session, auth-failed, connecting, associating and closed states
all make it false. -/
theorem event_Ok_iff_connected (e : Event) :
    (e.Ok = true ↔ e.State = STATE_CONNECTED)
    ∧ Event.Ok { type := EVENT_SESSION, Path := "", State := STATE_CONNECTED } = true
    ∧ Event.Ok { type := EVENT_SESSION, Path := "", State := STATE_EXPIRED_SESSION } = false
    ∧ Event.Ok { type := EVENT_SESSION, Path := "", State := STATE_AUTH_FAILED } = false
    ∧ Event.Ok { type := EVENT_SESSION, Path := "", State := STATE_CONNECTING } = false
    ∧ Event.Ok { type := EVENT_SESSION, Path := "", State := STATE_ASSOCIATING } = false
    ∧ Event.Ok { type := EVENT_CLOSED, Path := "", State := STATE_CLOSED } = false := by
  refine ⟨?_, by decide, by decide, by decide, by decide, by decide, by decide⟩
  simp [Event.Ok]

/-- A stat snapshot at data version 5, as read back by `Conn.Get` during a
`RetryChange` iteration. -/
def statV5 : Stat := { defaultStat with version := 5 }

/-- Service answers for a `RetryChange` iteration in which the node
exists with value "a" at version 5 and the version-checked set then
fails with connection loss — an error that is not one of the two
retryable conditions. -/
def opsSetConnLoss : ZkOps :=
  { get := fun _ => ("a", some statV5, none),
    create := fun _ _ _ _ => ("", none),
    set := fun _ _ _ => (none, some (OsError.zk ErrorCode.ZCONNECTIONLOSS)) }

/-- Service answers in which the version-checked set fails with
ZBADVERSION (a lost optimistic race). -/
def opsSetBadVersion : ZkOps :=
  { get := fun _ => ("a", some statV5, none),
    create := fun _ _ _ _ => ("", none),
    set := fun _ _ _ => (none, some (OsError.zk ErrorCode.ZBADVERSION)) }

/-- Service answers in which the version-checked set succeeds. -/
def opsSetOk : ZkOps :=
  { get := fun _ => ("a", some statV5, none),
    create := fun _ _ _ _ => ("", none),
    set := fun _ _ _ => (some { statV5 with version := 6 }, none) }

/-- A change function that rewrites the value "a" to "b" and never
errors. -/
def bumpChange : ChangeFunc := fun _ _ => ("b", none)

/-- Claim C1, evaluated at the failing input: with the node existing at
version 5 and the transformed value differing from the old one, a
version-checked set is attempted; ZBADVERSION makes the loop restart and
success returns nil — but when the set fails with ZCONNECTIONLOSS (an
error that is neither ZBADVERSION nor ZNONODE), `RetryChange` as written
returns nil instead of stopping with that error: the `Set` arm of
gozk.go ends in `return nil` where its own step-3 documentation requires
the error to be returned. -/
theorem retryChange_swallows_nonretryable_set_error :
    retryChangeStep opsSetConnLoss "/n" 0 [] bumpChange = RetryOutcome.done none
    ∧ (opsSetConnLoss.set "/n" "b" statV5.Version).2
        = some (OsError.zk ErrorCode.ZCONNECTIONLOSS)
    ∧ RetryChange 1 (fun _ => opsSetConnLoss) "/n" 0 [] bumpChange = some none
    ∧ retryChangeStep opsSetBadVersion "/n" 0 [] bumpChange = RetryOutcome.retry
    ∧ retryChangeStep opsSetOk "/n" 0 [] bumpChange = RetryOutcome.done none := by
  refine ⟨rfl, rfl, rfl, rfl, rfl⟩

/-- A node tree holding a single node "/zookeeper" with data "x" and a
non-zero stat (version 7, czxid 9, data length 1). -/
def demoStore : NodeStore := fun p =>
  if p = "/zookeeper" then
    some ("x", { defaultStat with version := 7, czxid := 9, dataLength := 1 })
  else
    none

/-- Claim C2, evaluated on `demoStore`: `Exists` on an absent node
returns (nil, nil) and `Get` on the same path returns the ZNONODE error,
as claimed — but on the existing node "/zookeeper" the stat returned by
`Exists` is the zero value, not the node's stat (version 0 instead of 7):
gozk.go hands `&stat.c`, the field of the nil named return, to
`zoo_wexists` instead of `&cstat.c`, so the native call never fills the
`cstat` that is returned. -/
theorem exists_returns_unfilled_stat :
    Conn.Exists demoStore "/absent" = (none, none)
    ∧ Conn.Get demoStore "/absent" = ("", none, some (OsError.zk ErrorCode.ZNONODE))
    ∧ Conn.Exists demoStore "/zookeeper" = (some defaultStat, none)
    ∧ (demoStore "/zookeeper").map (fun d => d.2.Version) = some 7
    ∧ defaultStat.Version = 0 := by
  refine ⟨?_, ?_, ?_, ?_, rfl⟩
  · simp [Conn.Exists, zoo_wexists, demoStore, zkError]
  · simp [Conn.Get, zoo_wget, demoStore, zkError]
  · simp [Conn.Exists, zoo_wexists, demoStore]
  · simp [demoStore, Stat.Version]

theorem forgetWatch_chans (w : World) (connId watchId : Nat) :
    (forgetWatch w connId watchId).chans = w.chans := by
  unfold forgetWatch
  rfl

/-- Claim C3, evaluated on the channel-allocation path: every
watch-installing operation (`GetW`, `ChildrenW`, `ExistsW`) invokes
`createWatch` with `session = true`, so the stream allocated for the
one-shot watch has capacity 32 — not capacity 1 as the one-shot case of
`createWatch` (its `buf := 1` branch, dead at every call site) would
give. -/
theorem watch_ops_allocate_capacity_32 (w : World) (connId : Nat) (rc : ErrorCode)
    (cerr : Option OsError) (data : String) (children : List String) (cstat : Stat) :
    mlookup ((Conn.GetW w connId rc cerr data cstat).2.2.2.2).chans w.nextChanId
        = some { capacity := 32, buffer := [], closed := false }
    ∧ mlookup ((Conn.ChildrenW w connId rc cerr children cstat).2.2.2.2).chans w.nextChanId
        = some { capacity := 32, buffer := [], closed := false }
    ∧ mlookup ((Conn.ExistsW w connId rc cerr cstat).2.2.2).chans w.nextChanId
        = some { capacity := 32, buffer := [], closed := false }
    ∧ (createWatch w connId false).2.2.chans
        = mapInsert w.chans w.nextChanId { capacity := 1, buffer := [], closed := false } := by
  have hcw : ((createWatch w connId true).2.2).chans
      = mapInsert w.chans w.nextChanId { capacity := 32, buffer := [], closed := false } := by
    unfold createWatch
    rfl
  refine ⟨?_, ?_, ?_, ?_⟩
  · unfold Conn.GetW
    by_cases h : rc = ErrorCode.ZOK
    · rw [if_neg (by simp [h])]
      rw [hcw, mlookup_mapInsert_self]
    · rw [if_pos (by simp [h])]
      rw [forgetWatch_chans, hcw, mlookup_mapInsert_self]
  · unfold Conn.ChildrenW
    by_cases h : rc = ErrorCode.ZOK
    · rw [if_pos h]
      rw [hcw, mlookup_mapInsert_self]
    · rw [if_neg h]
      rw [forgetWatch_chans, hcw, mlookup_mapInsert_self]
  · unfold Conn.ExistsW
    cases rc <;>
      simp only [forgetWatch_chans] <;>
      rw [hcw, mlookup_mapInsert_self]
  · unfold createWatch
    rfl

theorem zkError_ne_none (rc : ErrorCode) (cerr : Option OsError)
    (h : rc ≠ ErrorCode.ZOK) : zkError rc cerr ≠ none := by
  cases rc <;> first
    | exact absurd rfl h
    | (cases cerr <;> simp [zkError])

theorem createForget_restores (w : World) (connId : Nat) (zk : Conn) (s : Bool)
    (hconn : mlookup w.conns connId = some zk)
    (hfresh1 : mlookup w.watchConns w.watchCounter = none)
    (hfresh2 : mlookup zk.watchChannels w.watchCounter = none) :
    (forgetWatch ((createWatch w connId s).2.2) connId ((createWatch w connId s).1)).watchConns
        = w.watchConns
    ∧ ∀ c, mlookup
        (forgetWatch ((createWatch w connId s).2.2) connId ((createWatch w connId s).1)).conns c
        = mlookup w.conns c := by
  have h1 : (createWatch w connId s).2.2
      = { w with
          conns := mapInsert w.conns connId
            { zk with watchChannels :=
                mapInsert zk.watchChannels w.watchCounter w.nextChanId },
          chans := mapInsert w.chans w.nextChanId
            { capacity := if s then 32 else 1, buffer := [], closed := false },
          watchConns := mapInsert w.watchConns w.watchCounter connId,
          watchCounter := w.watchCounter + 1,
          nextChanId := w.nextChanId + 1 } := by
    unfold createWatch
    rw [hconn]
  have h0 : (createWatch w connId s).1 = w.watchCounter := rfl
  rw [h0, h1]
  set zk1 : Conn :=
    { zk with watchChannels := mapInsert zk.watchChannels w.watchCounter w.nextChanId }
    with hzk1
  have h2 : ∀ m : List (Nat × Conn), mlookup (mapInsert m connId zk1) connId = some zk1 :=
    fun m => mlookup_mapInsert_self m connId zk1
  constructor
  · show mapDelete (mapInsert w.watchConns w.watchCounter connId) w.watchCounter = w.watchConns
    exact mapDelete_mapInsert_cancel _ _ _ hfresh1
  · intro c
    unfold forgetWatch
    simp only [h2]
    by_cases hc : c = connId
    · subst hc
      rw [mlookup_mapInsert_self]
      rw [hconn]
      have hwc : mapDelete zk1.watchChannels w.watchCounter = zk.watchChannels := by
        rw [hzk1]
        exact mapDelete_mapInsert_cancel _ _ _ hfresh2
      rw [hwc]
    · rw [mlookup_mapInsert_ne _ _ _ _ hc, mlookup_mapInsert_ne _ _ _ _ hc]

theorem GetW_fail (w : World) (connId : Nat) (rc : ErrorCode) (cerr : Option OsError)
    (data : String) (cstat : Stat) (hrc : rc ≠ ErrorCode.ZOK) :
    Conn.GetW w connId rc cerr data cstat
      = ("", none, none, zkError rc cerr,
         forgetWatch ((createWatch w connId true).2.2) connId ((createWatch w connId true).1)) := by
  unfold Conn.GetW
  rw [if_pos hrc]

theorem ChildrenW_fail (w : World) (connId : Nat) (rc : ErrorCode) (cerr : Option OsError)
    (children : List String) (cstat : Stat) (hrc : rc ≠ ErrorCode.ZOK) :
    Conn.ChildrenW w connId rc cerr children cstat
      = (children, none, none, zkError rc cerr,
         forgetWatch ((createWatch w connId true).2.2) connId ((createWatch w connId true).1)) := by
  unfold Conn.ChildrenW
  rw [if_neg hrc]

theorem ExistsW_fail (w : World) (connId : Nat) (rc : ErrorCode) (cerr : Option OsError)
    (cstat : Stat) (hrc : rc ≠ ErrorCode.ZOK) (hrcn : rc ≠ ErrorCode.ZNONODE) :
    Conn.ExistsW w connId rc cerr cstat
      = (none, none, zkError rc cerr,
         forgetWatch ((createWatch w connId true).2.2) connId ((createWatch w connId true).1)) := by
  unfold Conn.ExistsW
  cases rc <;> first
    | exact absurd rfl hrc
    | exact absurd rfl hrcn
    | rfl

/-- Claim C7: when the native call of a watch-installing operation
(`GetW`, `ChildrenW`, `ExistsW`) fails — any non-ZOK status for the first
two, any status other than ZOK and ZNONODE for `ExistsW` — the operation
returns no stream, returns a typed error, and forgets the watch it had
registered just before the call: the global `watchConns` map, every
connection's `watchChannels`, and the pending-watch count end up exactly
as they were before the call. -/
theorem failed_watch_ops_restore_registry (w : World) (connId : Nat) (zk : Conn)
    (rc : ErrorCode) (cerr : Option OsError) (data : String)
    (children : List String) (cstat : Stat)
    (hconn : mlookup w.conns connId = some zk)
    (hfresh1 : mlookup w.watchConns w.watchCounter = none)
    (hfresh2 : mlookup zk.watchChannels w.watchCounter = none)
    (hrc : rc ≠ ErrorCode.ZOK) :
    ((Conn.GetW w connId rc cerr data cstat).2.2.1 = none
      ∧ (Conn.GetW w connId rc cerr data cstat).2.2.2.1 ≠ none
      ∧ ((Conn.GetW w connId rc cerr data cstat).2.2.2.2).watchConns = w.watchConns
      ∧ (∀ c, mlookup ((Conn.GetW w connId rc cerr data cstat).2.2.2.2).conns c
          = mlookup w.conns c)
      ∧ CountPendingWatches ((Conn.GetW w connId rc cerr data cstat).2.2.2.2)
          = CountPendingWatches w)
    ∧ ((Conn.ChildrenW w connId rc cerr children cstat).2.2.1 = none
      ∧ (Conn.ChildrenW w connId rc cerr children cstat).2.2.2.1 ≠ none
      ∧ ((Conn.ChildrenW w connId rc cerr children cstat).2.2.2.2).watchConns = w.watchConns
      ∧ (∀ c, mlookup ((Conn.ChildrenW w connId rc cerr children cstat).2.2.2.2).conns c
          = mlookup w.conns c)
      ∧ CountPendingWatches ((Conn.ChildrenW w connId rc cerr children cstat).2.2.2.2)
          = CountPendingWatches w)
    ∧ (rc ≠ ErrorCode.ZNONODE →
      (Conn.ExistsW w connId rc cerr cstat).2.1 = none
      ∧ (Conn.ExistsW w connId rc cerr cstat).2.2.1 ≠ none
      ∧ ((Conn.ExistsW w connId rc cerr cstat).2.2.2).watchConns = w.watchConns
      ∧ (∀ c, mlookup ((Conn.ExistsW w connId rc cerr cstat).2.2.2).conns c
          = mlookup w.conns c)
      ∧ CountPendingWatches ((Conn.ExistsW w connId rc cerr cstat).2.2.2)
          = CountPendingWatches w) := by
  have hr := createForget_restores w connId zk true hconn hfresh1 hfresh2
  have hcount : (forgetWatch ((createWatch w connId true).2.2) connId
      ((createWatch w connId true).1)).watchConns.length = w.watchConns.length := by
    rw [hr.1]
  refine ⟨?_, ?_, ?_⟩
  · rw [GetW_fail w connId rc cerr data cstat hrc]
    exact ⟨rfl, zkError_ne_none rc cerr hrc, hr.1, hr.2, hcount⟩
  · rw [ChildrenW_fail w connId rc cerr children cstat hrc]
    exact ⟨rfl, zkError_ne_none rc cerr hrc, hr.1, hr.2, hcount⟩
  · intro hrcn
    rw [ExistsW_fail w connId rc cerr cstat hrc hrcn]
    exact ⟨rfl, zkError_ne_none rc cerr hrc, hr.1, hr.2, hcount⟩

/-- The connection of the concrete registry fixture: no watches yet,
session watch id 0, live handle 1. -/
def zk7 : Conn := { watchChannels := [], sessionWatchId := 0, handle := some 1 }

/-- A concrete world holding connection `zk7` under id 0. -/
def w7 : World :=
  { conns := [(0, zk7)], chans := [], watchConns := [], watchCounter := 5,
    watchLoopCounter := 1, nextChanId := 0 }

/-- Witness for C7: a `GetW` failing with ZNONODE on `w7` leaves the
global watch map exactly as it was. -/
theorem failed_watch_ops_restore_registry_witness :
    ((Conn.GetW w7 0 ErrorCode.ZNONODE none "" defaultStat).2.2.2.2).watchConns
      = w7.watchConns :=
  (failed_watch_ops_restore_registry w7 0 zk7 ErrorCode.ZNONODE none "" []
    defaultStat rfl rfl rfl (by decide)).1.2.2.1

-- ----------------------------------------------------------------------
-- Dispatcher delivery and filtering.

/-- What claim C4 asserts of a world, a watch id and an event: an
unregistered id makes `sendEvent` drop the event silently, and a
session-type event reaching a registered watch that is not the owning
connection's session watch is dropped unless its state is
expired-session or auth-failed. -/
def SendFilterSpec (w : World) (watchId : Nat) (e : Event) : Prop :=
  (mlookup w.watchConns watchId = none → sendEvent w watchId e = Except.ok w)
  ∧ (∀ connId zk, mlookup w.watchConns watchId = some connId →
      mlookup w.conns connId = some zk →
      watchId ≠ zk.sessionWatchId →
      e.type = EVENT_SESSION →
      e.State ≠ STATE_EXPIRED_SESSION →
      e.State ≠ STATE_AUTH_FAILED →
      sendEvent w watchId e = Except.ok w)

/-- Claim C4: `sendEvent` forwards a session-type event to a watch other
than the session watch only when its state is expired-session or
auth-failed — every other session state is dropped with the world left
unchanged — and an event whose watch id is absent from the registry is
dropped silently. -/
theorem session_events_filtered_for_oneshot (w : World) (watchId : Nat) (e : Event)
    (hst : e.State ≠ STATE_CLOSED) : SendFilterSpec w watchId e := by
  constructor
  · intro habs
    unfold sendEvent
    rw [if_neg hst, habs]
  · intro connId zk hwc hzk hns hty hse hsa
    unfold sendEvent
    rw [if_neg hst]
    simp only [hwc, hzk]
    rw [if_pos ⟨hty, hns, hse, hsa⟩]

/-- The connection of the dispatcher fixtures: one pending one-shot
watch (id 3, channel 0), session watch id 9. -/
def zk5 : Conn := { watchChannels := [(3, 0)], sessionWatchId := 9, handle := some 1 }

/-- A world holding `zk5` under connection id 1, with watch 3 pending on
an empty open channel of capacity 32. -/
def w5 : World :=
  { conns := [(1, zk5)], chans := [(0, { capacity := 32, buffer := [], closed := false })],
    watchConns := [(3, 1)], watchCounter := 4, watchLoopCounter := 1, nextChanId := 1 }

/-- Witness for C4: a transient STATE_CONNECTED session event aimed at
the non-session watch 3 of `w5` is dropped. -/
theorem session_events_filtered_for_oneshot_witness :
    SendFilterSpec w5 3 { type := EVENT_SESSION, Path := "", State := STATE_CONNECTED } :=
  session_events_filtered_for_oneshot w5 3
    { type := EVENT_SESSION, Path := "", State := STATE_CONNECTED } (by decide)

/-- What claim C5 asserts of a delivery: a delivered watch that is not
the session watch is removed from both registry maps and its channel —
now holding the single delivered event — is closed, after which a second
send to the same id is dropped; a delivery to the session watch leaves
the registry untouched and only appends to the buffer; and receiving
from a drained closed channel yields the zeroed sentinel event with
EVENT_CLOSED / STATE_CLOSED. -/
def DeliverySpec (w : World) (watchId connId chanId : Nat) (zk : Conn) (ch : Chan)
    (e e2 : Event) : Prop :=
  (watchId ≠ zk.sessionWatchId →
    ∃ w1, sendEvent w watchId e = Except.ok w1
      ∧ mlookup w1.watchConns watchId = none
      ∧ (∃ zk1, mlookup w1.conns connId = some zk1
          ∧ mlookup zk1.watchChannels watchId = none)
      ∧ mlookup w1.chans chanId
          = some { capacity := ch.capacity, buffer := ch.buffer ++ [e], closed := true }
      ∧ sendEvent w1 watchId e2 = Except.ok w1)
  ∧ (watchId = zk.sessionWatchId →
      sendEvent w watchId e
        = Except.ok
            { w with
              chans := mapInsert w.chans chanId
                { capacity := ch.capacity, buffer := ch.buffer ++ [e],
                  closed := ch.closed } })
  ∧ (∀ cap : Nat, Chan.receive { capacity := cap, buffer := [], closed := true }
      = some ({ type := EVENT_CLOSED, Path := "", State := STATE_CLOSED },
              { capacity := cap, buffer := [], closed := true }))

/-- Claim C5: delivering an event retires a non-session watch — the id
leaves both registry maps and the stream is closed after carrying its
single event, so it delivers at most one event and then only the closed
sentinel — while a session watch is never retired by delivery. -/
theorem delivery_retires_oneshot_watch (w : World) (watchId connId chanId : Nat)
    (zk : Conn) (ch : Chan) (e e2 : Event)
    (hst : e.State ≠ STATE_CLOSED)
    (hwc : mlookup w.watchConns watchId = some connId)
    (hzk : mlookup w.conns connId = some zk)
    (hfilter : ¬(e.type = EVENT_SESSION ∧ watchId ≠ zk.sessionWatchId ∧
        e.State ≠ STATE_EXPIRED_SESSION ∧ e.State ≠ STATE_AUTH_FAILED))
    (hch : mlookup zk.watchChannels watchId = some chanId)
    (hchan : mlookup w.chans chanId = some ch)
    (hroom : ch.buffer.length < ch.capacity)
    (hst2 : e2.State ≠ STATE_CLOSED) :
    DeliverySpec w watchId connId chanId zk ch e e2 := by
  have htr : ch.trySend e = some { ch with buffer := ch.buffer ++ [e] } := by
    unfold Chan.trySend
    rw [if_pos hroom]
  refine ⟨?_, ?_, fun cap => rfl⟩
  · intro hne
    have hsend : sendEvent w watchId e
        = Except.ok
            { w with
              chans := mapInsert w.chans chanId
                { capacity := ch.capacity, buffer := ch.buffer ++ [e], closed := true },
              conns := mapInsert w.conns connId
                { zk with watchChannels := mapDelete zk.watchChannels watchId },
              watchConns := mapDelete w.watchConns watchId } := by
      unfold sendEvent
      rw [if_neg hst]
      simp only [hwc, hzk]
      rw [if_neg hfilter]
      simp only [hch, hchan, htr]
      rw [if_pos hne]
    have hnone : mlookup (mapDelete w.watchConns watchId) watchId = none :=
      mlookup_mapDelete_self _ _
    refine ⟨_, hsend, hnone,
      ⟨_, mlookup_mapInsert_self _ _ _, mlookup_mapDelete_self _ _⟩,
      mlookup_mapInsert_self _ _ _, ?_⟩
    unfold sendEvent
    rw [if_neg hst2]
    simp only [hnone]
  · intro heq
    unfold sendEvent
    rw [if_neg hst]
    simp only [hwc, hzk]
    rw [if_neg hfilter]
    simp only [hch, hchan, htr]
    rw [if_neg (fun hne => hne heq)]

/-- Witness for C5: delivering a node-changed event to the one-shot
watch 3 of `w5`. -/
theorem delivery_retires_oneshot_watch_witness :
    DeliverySpec w5 3 1 0 zk5 { capacity := 32, buffer := [], closed := false }
      { type := EVENT_CHANGED, Path := "/test", State := STATE_CONNECTED }
      { type := EVENT_CHANGED, Path := "/test", State := STATE_CONNECTED } :=
  delivery_retires_oneshot_watch w5 3 1 0 zk5
    { capacity := 32, buffer := [], closed := false }
    { type := EVENT_CHANGED, Path := "/test", State := STATE_CONNECTED }
    { type := EVENT_CHANGED, Path := "/test", State := STATE_CONNECTED }
    (by decide) rfl rfl (by decide) rfl rfl (by decide) (by decide)

-- ----------------------------------------------------------------------
-- Close and its teardown of the registry.

theorem deleteFold_none_preserved {α : Type} (l : List (Nat × Nat)) (m : List (Nat × α))
    (k : Nat) (h : mlookup m k = none) : mlookup (deleteFold m l) k = none := by
  induction l generalizing m with
  | nil => exact h
  | cons p rest ih =>
    show mlookup (deleteFold (mapDelete m p.1) rest) k = none
    by_cases hp : k = p.1
    · exact ih _ (hp ▸ mlookup_mapDelete_self m p.1)
    · exact ih _ (by rw [mlookup_mapDelete_ne m p.1 k hp]; exact h)

theorem deleteFold_lookup_mem {α : Type} (l : List (Nat × Nat)) (m : List (Nat × α))
    (wid cid : Nat) (hmem : (wid, cid) ∈ l) : mlookup (deleteFold m l) wid = none := by
  induction l generalizing m with
  | nil => cases hmem
  | cons p rest ih =>
    show mlookup (deleteFold (mapDelete m p.1) rest) wid = none
    rcases List.mem_cons.mp hmem with heq | hmem2
    · exact deleteFold_none_preserved rest _ wid
        (heq ▸ mlookup_mapDelete_self m wid)
    · exact ih _ hmem2

theorem closeFold_closed_preserved (l : List (Nat × Nat)) (chans : List (Nat × Chan))
    (cid : Nat) (ch : Chan) (h : mlookup chans cid = some ch) (hc : ch.closed = true) :
    ∃ ch1, mlookup (closeFold chans l) cid = some ch1 ∧ ch1.closed = true := by
  induction l generalizing chans ch with
  | nil => exact ⟨ch, h, hc⟩
  | cons p rest ih =>
    show ∃ ch1, mlookup (closeFold
        (match mlookup chans p.2 with
         | some ch0 => mapInsert chans p.2 { ch0 with closed := true }
         | none => chans) rest) cid = some ch1 ∧ ch1.closed = true
    cases hp : mlookup chans p.2 with
    | none => exact ih chans ch h hc
    | some ch0 =>
      by_cases hcd : cid = p.2
      · subst hcd
        exact ih _ { ch0 with closed := true } (mlookup_mapInsert_self _ _ _) rfl
      · exact ih _ ch (by rw [mlookup_mapInsert_ne _ _ _ _ hcd]; exact h) hc

theorem closeFold_closes (l : List (Nat × Nat)) (chans : List (Nat × Chan))
    (wid cid : Nat) (ch : Chan) (hmem : (wid, cid) ∈ l)
    (h : mlookup chans cid = some ch) :
    ∃ ch1, mlookup (closeFold chans l) cid = some ch1 ∧ ch1.closed = true := by
  induction l generalizing chans ch with
  | nil => cases hmem
  | cons p rest ih =>
    show ∃ ch1, mlookup (closeFold
        (match mlookup chans p.2 with
         | some ch0 => mapInsert chans p.2 { ch0 with closed := true }
         | none => chans) rest) cid = some ch1 ∧ ch1.closed = true
    rcases List.mem_cons.mp hmem with heq | hmem2
    · have hp2 : p.2 = cid := by rw [← heq]
      subst hp2
      simp only [h]
      exact closeFold_closed_preserved rest _ p.2 { ch with closed := true }
        (mlookup_mapInsert_self _ _ _) rfl
    · cases hp : mlookup chans p.2 with
      | none => exact ih chans ch hmem2 h
      | some ch0 =>
        by_cases hcd : cid = p.2
        · subst hcd
          exact closeFold_closed_preserved rest _ p.2 { ch0 with closed := true }
            (mlookup_mapInsert_self _ _ _) rfl
        · exact ih _ ch hmem2 (by rw [mlookup_mapInsert_ne _ _ _ _ hcd]; exact h)

theorem stopWatchLoop_conns (w : World) : (stopWatchLoop w).conns = w.conns := by
  simp only [stopWatchLoop]
  split <;> rfl

theorem stopWatchLoop_chans (w : World) : (stopWatchLoop w).chans = w.chans := by
  simp only [stopWatchLoop]
  split <;> rfl

theorem stopWatchLoop_watchConns (w : World) :
    (stopWatchLoop w).watchConns = w.watchConns := by
  simp only [stopWatchLoop]
  split <;> rfl

/-- What claim C6 asserts of one connection: the first `Close` returns
the translated native status, closes every channel owned by the
connection, removes its watches from the global registry, empties its
`watchChannels` and nulls its handle — and a second `Close` on the
resulting world finds the nulled handle and returns ZCLOSING with the
world untouched. -/
def CloseSpec (w : World) (connId : Nat) (zk : Conn) (rc rc2 : ErrorCode)
    (cerr cerr2 : Option OsError) : Prop :=
  ∃ w1, Conn.Close w connId rc cerr = (zkError rc cerr, w1)
    ∧ (∃ zk1, mlookup w1.conns connId = some zk1
        ∧ zk1.handle = none ∧ zk1.watchChannels = [])
    ∧ (∀ wid cid, (wid, cid) ∈ zk.watchChannels → mlookup w1.watchConns wid = none)
    ∧ (∀ wid cid ch, (wid, cid) ∈ zk.watchChannels → mlookup w.chans cid = some ch →
        ∃ ch1, mlookup w1.chans cid = some ch1 ∧ ch1.closed = true)
    ∧ Conn.Close w1 connId rc2 cerr2 = (some (OsError.zk ErrorCode.ZCLOSING), w1)

/-- Claim C6: `Close` is idempotent-safe — the first call performs the
native close, tears down every watch the connection owns (closing the
channels and removing the registry entries) and nulls the handle; any
later `Close` sees the nulled handle and returns the ZCLOSING error with
no further side effects. -/
theorem close_idempotent (w : World) (connId h : Nat) (zk : Conn)
    (rc rc2 : ErrorCode) (cerr cerr2 : Option OsError)
    (hconn : mlookup w.conns connId = some zk)
    (hh : zk.handle = some h) :
    CloseSpec w connId zk rc rc2 cerr cerr2 := by
  have hw1 : closeAllWatches w connId
      = { w with
          chans := closeFold w.chans zk.watchChannels,
          conns := mapInsert w.conns connId { zk with watchChannels := [] },
          watchConns := deleteFold w.watchConns zk.watchChannels } := by
    unfold closeAllWatches
    rw [hconn]
  have hc2 : mlookup (stopWatchLoop (closeAllWatches w connId)).conns connId
      = some { zk with watchChannels := [] } := by
    rw [stopWatchLoop_conns, hw1]
    exact mlookup_mapInsert_self _ _ _
  have hclose : Conn.Close w connId rc cerr
      = (zkError rc cerr,
         { stopWatchLoop (closeAllWatches w connId) with
           conns := mapInsert (stopWatchLoop (closeAllWatches w connId)).conns connId
             { { zk with watchChannels := [] } with handle := none } }) := by
    unfold Conn.Close
    simp only [hconn]
    rw [if_neg (show ¬zk.handle = none by rw [hh]; exact fun hx => Option.noConfusion hx)]
    simp only [hc2]
  refine ⟨_, hclose, ⟨_, mlookup_mapInsert_self _ _ _, rfl, rfl⟩, ?_, ?_, ?_⟩
  · intro wid cid hmem
    show mlookup (stopWatchLoop (closeAllWatches w connId)).watchConns wid = none
    rw [stopWatchLoop_watchConns, hw1]
    exact deleteFold_lookup_mem _ _ wid cid hmem
  · intro wid cid ch hmem hchan
    show ∃ ch1, mlookup (stopWatchLoop (closeAllWatches w connId)).chans cid = some ch1
        ∧ ch1.closed = true
    rw [stopWatchLoop_chans, hw1]
    exact closeFold_closes _ _ wid cid ch hmem hchan
  · unfold Conn.Close
    rw [mlookup_mapInsert_self]
    rfl

/-- The connection of the close fixture: one pending watch (id 3,
channel 0), live handle 1. -/
def zk6 : Conn := { watchChannels := [(3, 0)], sessionWatchId := 2, handle := some 1 }

/-- A world holding `zk6` under connection id 5. -/
def w6 : World :=
  { conns := [(5, zk6)], chans := [(0, { capacity := 1, buffer := [], closed := false })],
    watchConns := [(3, 5)], watchCounter := 4, watchLoopCounter := 1, nextChanId := 1 }

/-- Witness for C6: double close of connection 5 in `w6`. -/
theorem close_idempotent_witness :
    CloseSpec w6 5 zk6 ErrorCode.ZOK ErrorCode.ZOK none none :=
  close_idempotent w6 5 1 zk6 ErrorCode.ZOK ErrorCode.ZOK none none rfl rfl

end Gozk
